import Mathlib

set_option maxRecDepth 100000

/-!
Verification of the local RAG system's chunking, vector-store, pipeline and
upload logic, shallowly embedded from `src/backend/app`.

Conventions of the embedding:
* Python machine integers are `Nat` (all quantities here are non-negative);
  `int(x * 0.75)` on a non-negative integer `x` equals `x * 3 / 4` in `Nat`
  because 0.75 is exactly representable in binary floating point.
* Python floats used for distances/scores are modelled by `ℚ` (the code does
  no float-specific reasoning; only field arithmetic on distances appears).
* Fallible code returns `Except`; the store object is threaded explicitly.
* The FAISS index (`faiss.IndexFlatL2`) is modelled as the list of stored
  vectors in insertion order; `index.search` is modelled by an exact scan
  returning the k smallest squared L2 distances (FAISS `IndexFlatL2` returns
  squared distances) in increasing order, ties broken by position.
* Disk persistence (`faiss.write_index` + pickled metadata) is modelled by
  two extra fields of the store holding the last-saved copies.
-/

/-- Metadata dictionary attached to one chunk, as produced by
`TextChunker.chunk_text` and stored in `FAISSVectorStore.metadata`
(`src/backend/app/rag/chunker.py`). The Python `total_chunks: None`
placeholder is modelled as `0`; it is overwritten before `chunk_text`
returns. -/
structure Chunk where
  text : String
  filename : String
  file_type : String
  chunk_index : Nat
  total_chunks : Nat
deriving DecidableEq, Repr

/-- Default used for (never-exercised) out-of-range metadata lookups. -/
def defaultChunk : Chunk := ⟨"", "", "", 0, 0⟩

instance : Inhabited Chunk := ⟨defaultChunk⟩

/-- Character-level worker for `pySplit`: `acc` holds the characters of
the word currently being read, in reverse. -/
def pySplitChars : List Char → List Char → List String
  | [], [] => []
  | [], acc => [String.mk acc.reverse]
  | c :: rest, acc =>
    if c.isWhitespace then
      match acc with
      | [] => pySplitChars rest []
      | _ :: _ => String.mk acc.reverse :: pySplitChars rest []
    else
      pySplitChars rest (c :: acc)

/-- Python `str.split()` with no argument: split on runs of whitespace,
dropping empty pieces (so `"".split() = []` and leading or trailing
whitespace produces no empty words). -/
def pySplit (s : String) : List String :=
  pySplitChars s.data []

/-- Python `str.strip()`: drop whitespace from both ends. -/
def pyStrip (s : String) : String :=
  String.mk ((s.data.dropWhile Char.isWhitespace).reverse.dropWhile
    Char.isWhitespace).reverse

/-- Python `str.lower()` (ASCII case folding, all that the extension
check needs). -/
def pyLower (s : String) : String :=
  String.mk (s.data.map Char.toLower)

/-- Characters before the first `'.'` of a reversed name, `none` when
there is no dot at all. -/
def takeUntilDot : List Char → Option (List Char)
  | [] => none
  | c :: rest =>
    if c = '.' then some []
    else (takeUntilDot rest).map (c :: ·)

/-- Python `pathlib.Path(name).suffix` for an ordinary file name (nonempty
stem and extension): the final dot together with what follows it, `""`
when the name has no dot. -/
def pathSuffix (name : String) : String :=
  match takeUntilDot name.data.reverse with
  | none => ""
  | some extRev => "." ++ String.mk extRev.reverse

/-- `TextChunker._clean_text` (`chunker.py`, lines 98-110):
`re.sub(r"\s+", " ", text).strip()` collapses every whitespace run to a
single space and trims the ends, which is exactly the single-space join of
the whitespace-split words. -/
def cleanText (s : String) : String :=
  String.intercalate " " (pySplit s)

/-- State of a `TextChunker` (`chunker.py`, lines 23-35). -/
structure TextChunker where
  chunk_size : Nat
  overlap : Nat
  words_per_chunk : Nat
  words_overlap : Nat
deriving DecidableEq, Repr

/-- `TextChunker.__init__` (`chunker.py`, lines 23-35):
`words_per_chunk = int(chunk_size * 0.75)` and
`words_overlap = int(overlap * 0.75)`; both equal `⌊3x/4⌋` on `Nat`.
Note there is no validation of any relation between `overlap` and
`chunk_size`: every pair of arguments constructs successfully. -/
def mkTextChunker (chunk_size overlap : Nat) : TextChunker :=
  ⟨chunk_size, overlap, chunk_size * 3 / 4, overlap * 3 / 4⟩

/-- The `while start_idx < len(words)` loop of `TextChunker.chunk_text`
(`chunker.py`, lines 69-89), with explicit fuel: the Python loop need not
terminate (its step `words_per_chunk - words_overlap` can be `0`), and
`none` models divergence. One fuel unit is one loop iteration.
`step` is `self.words_per_chunk - self.words_overlap`; the slice
`words[start_idx:end_idx]` is `(words.drop start_idx).take wpc`; the
`break` fires after appending the chunk whose `end_idx` reaches the end. -/
def chunkLoop (wpc step : Nat) (words : List String) (filename file_type : String) :
    Nat → Nat → Nat → Option (List Chunk)
  | 0, _, _ => none
  | fuel + 1, start_idx, chunk_index =>
    if start_idx < words.length then
      let chunk_words := (words.drop start_idx).take wpc
      let c : Chunk :=
        ⟨String.intercalate " " chunk_words, filename, file_type, chunk_index, 0⟩
      if words.length ≤ start_idx + wpc then
        some [c]
      else
        (chunkLoop wpc step words filename file_type fuel (start_idx + step)
          (chunk_index + 1)).map (c :: ·)
    else
      some []

/-- `TextChunker.chunk_text` (`chunker.py`, lines 37-96). The fuel
`words.length` is enough for every terminating run (when the step is
positive the loop makes at most one iteration per word); a `none` result
means the Python loop diverges. The final pass backfilling
`total_chunks = len(chunks)` is the `List.map` update. -/
def chunk_text (ch : TextChunker) (text filename file_type : String) :
    Option (List Chunk) :=
  let cleaned := cleanText text
  let words := pySplit cleaned
  if words.length ≤ ch.words_per_chunk then
    some [⟨cleaned, filename, file_type, 0, 1⟩]
  else
    match chunkLoop ch.words_per_chunk (ch.words_per_chunk - ch.words_overlap)
        words filename file_type words.length 0 0 with
    | none => none
    | some cs => some (cs.map (fun c => { c with total_chunks := cs.length }))

/-- Embedding vectors, modelled over `ℚ`. -/
def Vec : Type := List ℚ

instance : DecidableEq Vec := by
  unfold Vec
  infer_instance

/-- One element of the result list of `FAISSVectorStore.search`
(`vector_store.py`, lines 134-140). -/
structure SearchResult where
  text : String
  filename : String
  file_type : String
  chunk_index : Nat
  score : ℚ
deriving DecidableEq, Repr

/-- State of a `FAISSVectorStore` (`vector_store.py`): the in-memory FAISS
index (list of stored vectors, insertion order) and metadata list, plus the
last-persisted copies of both (`faiss.index` / `metadata.pkl` on disk). -/
structure VectorStore where
  embedding_dim : Nat
  index : List Vec
  metadata : List Chunk
  disk_index : List Vec
  disk_metadata : List Chunk
deriving DecidableEq

/-- A freshly constructed store with no persisted artifacts
(`__init__` taking the `_create_new_index` branch, `vector_store.py`
lines 27-59). -/
def emptyStore (dim : Nat) : VectorStore :=
  ⟨dim, [], [], [], []⟩

/-- `FAISSVectorStore.save` (`vector_store.py`, lines 68-73): write the
index and the metadata list to disk. -/
def VectorStore.save (s : VectorStore) : VectorStore :=
  { s with disk_index := s.index, disk_metadata := s.metadata }

/-- `FAISSVectorStore._create_new_index` (`vector_store.py`, lines 48-59):
`self.index = faiss.IndexFlatL2(dim)` and `self.metadata = []`. Note it
resets the metadata list as well as the index. -/
def VectorStore.createNewIndex (s : VectorStore) : VectorStore :=
  { s with index := [], metadata := [] }

/-- `FAISSVectorStore.add_vectors` (`vector_store.py`, lines 75-93): raise
`ValueError` on a length mismatch (before any mutation), otherwise append
to the index, extend the metadata and persist. -/
def VectorStore.add_vectors (s : VectorStore) (embeddings : List Vec)
    (metadata_list : List Chunk) : Except String VectorStore :=
  if embeddings.length ≠ metadata_list.length then
    Except.error "Number of embeddings must match metadata list length"
  else
    Except.ok (VectorStore.save
      { s with index := s.index ++ embeddings,
               metadata := s.metadata ++ metadata_list })

/-- Squared L2 distance between two vectors, the quantity
`faiss.IndexFlatL2` computes and returns for each hit. -/
def sqDist (q v : Vec) : ℚ :=
  (List.zipWith (fun a b => (a - b) * (a - b)) q v).sum

/-- Insertion step for sorting candidate `(distance, position)` pairs by
increasing distance, ties by position. -/
def insertByDist (p : ℚ × Nat) : List (ℚ × Nat) → List (ℚ × Nat)
  | [] => [p]
  | q :: rest =>
    if p.1 < q.1 ∨ (p.1 = q.1 ∧ p.2 ≤ q.2) then p :: q :: rest
    else q :: insertByDist p rest

/-- Insertion sort of candidate pairs by increasing distance. -/
def sortByDist : List (ℚ × Nat) → List (ℚ × Nat)
  | [] => []
  | p :: rest => insertByDist p (sortByDist rest)

/-- Model of `self.index.search(query, k)` on a `faiss.IndexFlatL2`
(`vector_store.py`, line 116): exact scan returning the `k` nearest stored
vectors as `(squared L2 distance, position)` pairs in increasing distance
order. Since the code always requests `k ≤ ntotal`, the `-1` padding FAISS
uses for `k > ntotal` never occurs and is not modelled. -/
def faissSearch (index : List Vec) (query : Vec) (k : Nat) : List (ℚ × Nat) :=
  (sortByDist (index.enum.map (fun p => (sqDist query p.2, p.1)))).take k

/-- The metadata filter test of `FAISSVectorStore.search`
(`vector_store.py`, line 126): the candidate is skipped iff
`filter_filenames` is truthy (a non-`None`, non-empty list) and the
filename is not in it. `passesFilter` is the keep condition. -/
def passesFilter (filter_filenames : Option (List String)) (fn : String) : Bool :=
  match filter_filenames with
  | none => true
  | some l => if l.isEmpty then true else l.contains fn

/-- The result-collection loop of `FAISSVectorStore.search`
(`vector_store.py`, lines 118-143). `count` is `len(results)` so far; the
`break` fires as soon as a candidate is appended making
`len(results) >= top_k`. -/
def searchLoop (md : List Chunk) (filter_filenames : Option (List String))
    (top_k : Nat) : List (ℚ × Nat) → Nat → List SearchResult
  | [], _ => []
  | (dist, idx) :: rest, count =>
    let m := md.getD idx defaultChunk
    if passesFilter filter_filenames m.filename then
      let r : SearchResult :=
        ⟨m.text, m.filename, m.file_type, m.chunk_index, 1 - dist / 2⟩
      if top_k ≤ count + 1 then [r]
      else r :: searchLoop md filter_filenames top_k rest (count + 1)
    else
      searchLoop md filter_filenames top_k rest count

/-- `FAISSVectorStore.search` (`vector_store.py`, lines 95-145): empty
index short-circuits to `[]`; otherwise ask the index for
`min(top_k * 2, ntotal)` nearest neighbours and run the collection loop. -/
def VectorStore.search (s : VectorStore) (query : Vec) (top_k : Nat)
    (filter_filenames : Option (List String)) : List SearchResult :=
  if s.index.length = 0 then []
  else
    searchLoop s.metadata filter_filenames top_k
      (faissSearch s.index query (min (top_k * 2) s.index.length)) 0

/-- `FAISSVectorStore.delete_by_filename` (`vector_store.py`, lines
151-181), translated statement by statement. Note the source's final
sequence: `self.metadata = new_metadata` is immediately followed by
`self._create_new_index()`, which resets `self.metadata` to `[]` again, so
`new_metadata` is computed but clobbered before `save()`. -/
def VectorStore.delete_by_filename (s : VectorStore) (filename : String) :
    VectorStore :=
  let indices_to_keep :=
    (s.metadata.enum.filter (fun im => im.2.filename != filename)).map Prod.fst
  if indices_to_keep.length = s.metadata.length then s
  else
    let new_metadata := indices_to_keep.map (fun i => s.metadata.getD i defaultChunk)
    let s1 := { s with metadata := new_metadata }
    VectorStore.save s1.createNewIndex

/-- `FAISSVectorStore.clear` (`vector_store.py`, lines 183-186). -/
def VectorStore.clear (s : VectorStore) : VectorStore :=
  VectorStore.save s.createNewIndex

/-- The store invariant stated in the data model: the number of vectors in
the index equals the length of the metadata sequence. -/
def storeInvariant (s : VectorStore) : Prop :=
  s.index.length = s.metadata.length

/-- One mutating vector-store operation. -/
inductive StoreOp where
  | add (embeddings : List Vec) (metadata_list : List Chunk)
  | delete (filename : String)
  | clearOp
deriving DecidableEq

/-- The store state after one operation: a raised `ValueError` from
`add_vectors` leaves the Python object unchanged (the raise precedes every
mutation). -/
def applyOp (s : VectorStore) : StoreOp → VectorStore
  | .add e m =>
    match s.add_vectors e m with
    | .ok s' => s'
    | .error _ => s
  | .delete fn => s.delete_by_filename fn
  | .clearOp => s.clear

/-- The store state after a sequence of operations. -/
def applyOps (s : VectorStore) (ops : List StoreOp) : VectorStore :=
  ops.foldl applyOp s

/-- Ghost pair history: the list of (vector, metadata) pairs the store
should hold, each pair created by one `add` at one position. `add` with
matching lengths appends the zipped pairs, a delete touching at least one
entry empties the store (see `delete_by_filename`), `clear` empties it. -/
def specHist (H : List (Vec × Chunk)) : StoreOp → List (Vec × Chunk)
  | .add e m => if e.length = m.length then H ++ List.zip e m else H
  | .delete fn =>
    if (H.map Prod.snd).all (fun c => c.filename != fn) then H else []
  | .clearOp => []

/-- Outcome of the single HTTP POST to the generation service
(`rag_pipeline.py`, lines 146-160): a 200 response carrying the model's
`response` field, a non-200 status, or a `requests.RequestException`
(timeout / connection failure). -/
inductive LLMResponse where
  | success (body : String)
  | httpError (status : Nat)
  | networkError (msg : String)
deriving DecidableEq, Repr

/-- The call failed: non-2xx status or network failure. -/
def isFailure : LLMResponse → Bool
  | .success _ => false
  | .httpError _ => true
  | .networkError _ => true

/-- `RAGPipeline.SYSTEM_PROMPT` (`rag_pipeline.py`, lines 32-35). -/
def system_prompt : String :=
  "You are a helpful assistant that answers questions based on the provided context.\nUse ONLY the information from the context to answer the question.\nIf the context doesn't contain enough information to answer the question, say so clearly.\nBe concise but thorough."

/-- `RAGPipeline.PROMPT_TEMPLATE.format(context=..., question=...)`
(`rag_pipeline.py`, lines 37-44 and 92-95). -/
def promptTemplate (context question : String) : String :=
  "Context information from documents:\n---\n" ++ context ++
    "\n---\n\nQuestion: " ++ question ++ "\n\nAnswer based on the context above:"

/-- `RAGPipeline._format_context` (`rag_pipeline.py`, lines 105-117):
each chunk rendered with a 1-based source number, joined by newlines. -/
def format_context (chunks : List SearchResult) : String :=
  String.intercalate "\n"
    (chunks.enum.map (fun p =>
      "[Source " ++ toString (p.1 + 1) ++ ": " ++ p.2.filename ++ ", chunk " ++
        toString p.2.chunk_index ++ "]\n" ++ p.2.text ++ "\n"))

/-- Leading text of `RAGPipeline._fallback_answer`. -/
def unavailableNotice : String :=
  "LLM service unavailable. Showing the retrieved context instead:\n\n"

/-- Trailing text of `RAGPipeline._fallback_answer`. -/
def ollamaHint : String :=
  "\n\nStart Ollama with `ollama serve` and ensure the `llama3.2` model is installed."

/-- `RAGPipeline._fallback_answer` (`rag_pipeline.py`, lines 162-173). -/
def fallback_answer (prompt : String) : String :=
  unavailableNotice ++ prompt ++ ollamaHint

/-- `RAGPipeline._generate_answer` (`rag_pipeline.py`, lines 119-160),
with the generation service abstracted as the oracle `llm`. Returns the
answer together with the list of prompts POSTed to the service (exactly
one here: the request is made before the outcome is known). A 200 response
returns `response.strip()`; any failure returns the fallback. -/
def generate_answer (llm : String → LLMResponse) (prompt : String) :
    String × List String :=
  (match llm prompt with
   | .success body => pyStrip body
   | .httpError _ => fallback_answer prompt
   | .networkError _ => fallback_answer prompt,
   [prompt])

/-- Result dictionary of `RAGPipeline.query`. -/
structure QueryResult where
  answer : String
  sources : List SearchResult
deriving DecidableEq, Repr

/-- `RAGPipeline.query` (`rag_pipeline.py`, lines 59-103), with the
embedder (`embed_query`) and the generation service abstracted as
oracles. The second component of the result is the list of prompts sent
to the generation service (`[]` means the service was never contacted). -/
def queryPipeline (embed_query : String → Vec) (llm : String → LLMResponse)
    (store : VectorStore) (question : String) (top_k : Nat)
    (active_files : Option (List String)) : QueryResult × List String :=
  let query_embedding := embed_query question
  let retrieved_chunks := store.search query_embedding top_k active_files
  if retrieved_chunks = [] then
    (⟨"No relevant information found in the indexed documents.", []⟩, [])
  else
    let context_str := format_context retrieved_chunks
    let prompt := promptTemplate context_str question
    let (answer, calls) := generate_answer llm prompt
    (⟨answer, retrieved_chunks⟩, calls)

/-- `allowed_extensions` of `upload_file` (`upload.py`, line 50). The
Python value is a set; membership is all that is ever used. -/
def allowed_extensions : List String :=
  [".pdf", ".txt", ".md", ".markdown", ".docx"]

/-- Writing the uploaded bytes to `uploads_dir / filename` (`upload.py`,
lines 60-63), modelled on a name-to-content association list (an existing
file of the same name is overwritten). -/
def saveFile (uploads : List (String × String)) (name content : String) :
    List (String × String) :=
  (name, content) :: uploads.filter (fun p => p.1 != name)

/-- Server state visible to the upload endpoint: the uploads directory and
the shared vector store. -/
structure AppState where
  uploads : List (String × String)
  store : VectorStore
deriving DecidableEq

/-- `UploadResponse` (`schemas.py`), as returned by `upload_file`. -/
structure UploadResponse where
  filename : String
  chunks_created : Nat
  file_type : String
deriving DecidableEq, Repr

instance {ε α : Type} [DecidableEq ε] [DecidableEq α] :
    DecidableEq (Except ε α) := fun x y =>
  match x, y with
  | .ok a, .ok b =>
    if h : a = b then isTrue (by rw [h])
    else isFalse (by intro hc; cases hc; exact h rfl)
  | .error a, .error b =>
    if h : a = b then isTrue (by rw [h])
    else isFalse (by intro hc; cases hc; exact h rfl)
  | .ok _, .error _ => isFalse (by intro hc; cases hc)
  | .error _, .ok _ => isFalse (by intro hc; cases hc)

/-- `upload_file` (`upload.py`, lines 36-97), with text extraction and the
embedder abstracted as oracles (`extract` is applied to the saved file's
content; a raised exception is its `error` case). The result pairs the
post-request server state with either an `UploadResponse` or an
`HTTPException` as `(status code, detail)`. Local file writing is modelled
as always succeeding. The `none` branch of `chunk_text` (a diverging
chunker loop, impossible for the default chunker) is mapped to a server
error so the function is total; no theorem below depends on that branch. -/
def upload_file (extract : String → Except String String)
    (embed : List String → Except String (List Vec))
    (chunker : TextChunker) (st : AppState) (filename content : String) :
    AppState × Except (Nat × String) UploadResponse :=
  if pyLower (pathSuffix filename) ∉ allowed_extensions then
    (st, Except.error (400, "Unsupported file type. Allowed: .pdf, .txt, .md, .markdown, .docx"))
  else
    let st1 : AppState := { st with uploads := saveFile st.uploads filename content }
    match extract content with
    | Except.error e => (st1, Except.error (500, "Failed to extract text: " ++ e))
    | Except.ok text =>
      if pyStrip text = "" then
        (st1, Except.error (400, "No text content found in file"))
      else
        let file_type := String.mk ((pathSuffix filename).data.dropWhile (fun c => c = '.'))
        match chunk_text chunker text filename file_type with
        | none => (st1, Except.error (500, "chunking did not terminate"))
        | some chunks =>
          match embed (chunks.map (fun c => c.text)) with
          | Except.error e => (st1, Except.error (500, "Failed to embed text: " ++ e))
          | Except.ok embeddings =>
            match st1.store.add_vectors embeddings chunks with
            | Except.error e => (st1, Except.error (500, "Failed to store vectors: " ++ e))
            | Except.ok store' =>
              ({ st1 with store := store' },
               Except.ok ⟨filename, chunks.length, file_type⟩)

/-! Concrete inputs used by witnesses and counterexamples. -/

/-- A chunk of document `a.txt`. -/
def chA : Chunk := ⟨"alpha", "a.txt", "txt", 0, 1⟩

/-- A chunk of document `b.txt`. -/
def chB : Chunk := ⟨"beta", "b.txt", "txt", 0, 1⟩

/-- A store holding one chunk of `a.txt` and one chunk of `b.txt`,
persisted (the state produced by adding both pairs to a fresh store). -/
def exStore2 : VectorStore :=
  ⟨1, [[(1 : ℚ)], [(0 : ℚ)]], [chA, chB], [[(1 : ℚ)], [(0 : ℚ)]], [chA, chB]⟩

/-- A store holding a single chunk of `a.txt`, persisted. -/
def exStore1 : VectorStore := ⟨1, [[(1 : ℚ)]], [chA], [[(1 : ℚ)]], [chA]⟩

/-- A store holding a single chunk of `b.txt`, persisted. -/
def exStoreB : VectorStore := ⟨1, [[(1 : ℚ)]], [chB], [[(1 : ℚ)]], [chB]⟩

/-- Seventy-six one-letter words: one more than the 75-word window of a
chunker built with `chunk_size = overlap = 100`. -/
def badWords : List String := List.replicate 76 "w"

/-- The 76-word document as a text. -/
def badText : String := String.intercalate " " badWords

/-- Extraction oracle returning the saved content unchanged. -/
def okExtract : String → Except String String := fun c => Except.ok c

/-- Embedding oracle returning a fixed one-dimensional vector per text. -/
def okEmbed : List String → Except String (List Vec) :=
  fun ts => Except.ok (ts.map (fun _ => [(0 : ℚ)]))

/-- Fresh server state: empty uploads directory, fresh store. -/
def st0 : AppState := ⟨[], emptyStore 1⟩

/-- The window of the sliding-window chunking at offset `i * step`:
`words[i*step : i*step + wpc]` in Python slice notation. -/
def windowWords (words : List String) (wpc step i : Nat) : List String :=
  (words.drop (i * step)).take wpc

/-! Helper lemmas. -/

/-- Filtering an enumeration by a predicate on the payload keeps as many
elements as filtering the underlying list. -/
theorem length_enumFrom_filter_snd {α : Type} (p : α → Bool) :
    ∀ (l : List α) (n : Nat),
      ((List.enumFrom n l).filter (fun im => p im.2)).length =
        (l.filter p).length := by
  intro l
  induction l with
  | nil => intro n; rfl
  | cons c t ih =>
    intro n
    by_cases hp : p c = true <;>
      simp [List.enumFrom, List.filter_cons, hp, ih (n + 1)]

/-- The early-return test of `delete_by_filename` holds iff no metadata
entry carries the filename. -/
theorem delete_cond_iff (s : VectorStore) (fn : String) :
    ((s.metadata.enum.filter (fun im => im.2.filename != fn)).map
        Prod.fst).length = s.metadata.length ↔
      ∀ c ∈ s.metadata, (c.filename != fn) = true := by
  rw [List.length_map, List.enum,
    length_enumFrom_filter_snd (fun c => c.filename != fn) s.metadata 0,
    List.filter_length_eq_length]

/-- `delete_by_filename` returns before mutating anything when every
metadata entry survives the filter. -/
theorem delete_eq_of_all_keep (s : VectorStore) (fn : String)
    (h : ∀ c ∈ s.metadata, (c.filename != fn) = true) :
    s.delete_by_filename fn = s := by
  unfold VectorStore.delete_by_filename
  simp only [(delete_cond_iff s fn).mpr h, if_true]

/-- When at least one metadata entry matches, `delete_by_filename` resets
the store to the empty state (the index is rebuilt empty and
`_create_new_index` clobbers the surviving metadata) and persists it. -/
theorem delete_eq_empty_of_match (s : VectorStore) (fn : String)
    (h : ¬ ∀ c ∈ s.metadata, (c.filename != fn) = true) :
    s.delete_by_filename fn = ⟨s.embedding_dim, [], [], [], []⟩ := by
  unfold VectorStore.delete_by_filename
  rw [if_neg (fun hc => h ((delete_cond_iff s fn).mp hc))]
  rfl

/-- Refinement relation: the store's index and metadata are the two
projections of one ghost list of (vector, metadata) pairs, each pair
created together by one `add_vectors` call. -/
def histInv (s : VectorStore) (H : List (Vec × Chunk)) : Prop :=
  s.index = H.map Prod.fst ∧ s.metadata = H.map Prod.snd

/-- Every operation preserves the pair-history refinement. -/
theorem histInv_applyOp {s : VectorStore} {H : List (Vec × Chunk)}
    (hi : histInv s H) (op : StoreOp) :
    histInv (applyOp s op) (specHist H op) := by
  obtain ⟨h1, h2⟩ := hi
  cases op with
  | add e m =>
    by_cases hlen : e.length = m.length
    · refine ⟨?_, ?_⟩
      · simp [applyOp, VectorStore.add_vectors, hlen, specHist,
          VectorStore.save, h1, List.map_fst_zip e m (le_of_eq hlen)]
      · simp [applyOp, VectorStore.add_vectors, hlen, specHist,
          VectorStore.save, h2, List.map_snd_zip e m (le_of_eq hlen.symm)]
    · refine ⟨?_, ?_⟩ <;>
        simp [applyOp, VectorStore.add_vectors, hlen, specHist, h1, h2]
  | delete fn =>
    by_cases hall : ∀ c ∈ s.metadata, (c.filename != fn) = true
    · have hs := delete_eq_of_all_keep s fn hall
      have hspec : ((H.map Prod.snd).all (fun c => c.filename != fn)) = true := by
        rw [List.all_eq_true]
        intro c hc
        exact hall c (h2 ▸ hc)
      have ha : applyOp s (StoreOp.delete fn) = s := by simp [applyOp, hs]
      have hsp : specHist H (StoreOp.delete fn) = H := by simp [specHist, hspec]
      rw [ha, hsp]
      exact ⟨h1, h2⟩
    · have hs := delete_eq_empty_of_match s fn hall
      have hspec : ¬ ((H.map Prod.snd).all (fun c => c.filename != fn)) = true := by
        rw [List.all_eq_true]
        intro hc
        exact hall (fun c hcm => hc c (h2 ▸ hcm))
      have ha : applyOp s (StoreOp.delete fn) =
          ⟨s.embedding_dim, [], [], [], []⟩ := by simp [applyOp, hs]
      have hsp : specHist H (StoreOp.delete fn) = [] := by simp [specHist, hspec]
      rw [ha, hsp]
      exact ⟨rfl, rfl⟩
  | clearOp =>
    exact ⟨by simp [applyOp, VectorStore.clear, VectorStore.createNewIndex,
        VectorStore.save, specHist],
      by simp [applyOp, VectorStore.clear, VectorStore.createNewIndex,
        VectorStore.save, specHist]⟩

/-- C1: for every sequence of vector-store operations (`add_vectors`,
`delete_by_filename`, `clear`) starting from a fresh store, the store
invariant holds after each one (since the operation sequence is
universally quantified, every intermediate state is covered): the number
of vectors in the index equals the length of the metadata sequence, and
the positional correspondence holds in the strong sense that index and
metadata are the two projections of a single list of (vector, metadata)
pairs, each pair appended together by one `add_vectors` call
(`delete_by_filename` and `clear` empty both sides together, so the
pairing is never skewed). -/
theorem c1_store_invariant_all_ops (dim : Nat) (ops : List StoreOp) :
    storeInvariant (applyOps (emptyStore dim) ops) ∧
    (applyOps (emptyStore dim) ops).index =
      (ops.foldl specHist []).map Prod.fst ∧
    (applyOps (emptyStore dim) ops).metadata =
      (ops.foldl specHist []).map Prod.snd := by
  have key : ∀ (l : List StoreOp) (s : VectorStore) (H : List (Vec × Chunk)),
      histInv s H → histInv (l.foldl applyOp s) (l.foldl specHist H) := by
    intro l
    induction l with
    | nil => intro s H h; exact h
    | cons op t ih => intro s H h; exact ih _ _ (histInv_applyOp h op)
  have h := key ops (emptyStore dim) [] ⟨rfl, rfl⟩
  refine ⟨?_, by simpa [applyOps] using h.1, by simpa [applyOps] using h.2⟩
  unfold storeInvariant applyOps
  rw [h.1, h.2]
  simp

/-- C2: evaluating `delete_by_filename` at a failing input. The store
holds one chunk of `a.txt` and one of `b.txt`; deleting `a.txt` should
leave `b.txt`'s entry present and searchable, but the code rebuilds the
index empty and `_create_new_index` also resets the metadata list, so the
surviving entry is gone and every subsequent search returns nothing. -/
theorem c2_delete_destroys_survivors :
    (exStore2.delete_by_filename "a.txt").metadata = [] ∧
    (exStore2.delete_by_filename "a.txt").index = [] ∧
    ∀ (q : Vec) (top_k : Nat) (filt : Option (List String)),
      (exStore2.delete_by_filename "a.txt").search q top_k filt = [] := by
  have hmd : (exStore2.delete_by_filename "a.txt").metadata = [] := by decide
  have hidx : (exStore2.delete_by_filename "a.txt").index = [] := by decide
  refine ⟨hmd, hidx, ?_⟩
  intro q top_k filt
  simp [VectorStore.search, hidx]

/-- C7: `add_vectors` with mismatched lengths raises the `ValueError`
before any mutation, so the store state (hence the stored vector count
and the metadata sequence) is unchanged. -/
theorem c7_add_mismatch_rejected (s : VectorStore) (e : List Vec)
    (m : List Chunk) (h : e.length ≠ m.length) :
    s.add_vectors e m =
      Except.error "Number of embeddings must match metadata list length" ∧
    applyOp s (StoreOp.add e m) = s := by
  constructor
  · simp [VectorStore.add_vectors, h]
  · simp [applyOp, VectorStore.add_vectors, h]

/-- C7 witness: a concrete mismatched `add_vectors` call. -/
theorem c7_add_mismatch_rejected_witness :
    ([[(1 : ℚ)]] : List Vec).length ≠ ([] : List Chunk).length ∧
    ((emptyStore 1).add_vectors [[(1 : ℚ)]] [] =
      Except.error "Number of embeddings must match metadata list length" ∧
    applyOp (emptyStore 1) (StoreOp.add [[(1 : ℚ)]] []) = emptyStore 1) :=
  ⟨by decide, c7_add_mismatch_rejected (emptyStore 1) [[(1 : ℚ)]] [] (by decide)⟩

/-- With an empty list as filter, the collection loop of `search` behaves
exactly as with no filter: a Python empty list is falsy, so the filter
test is never applied. -/
theorem searchLoop_some_nil (md : List Chunk) (top_k : Nat) :
    ∀ (l : List (ℚ × Nat)) (count : Nat),
      searchLoop md (some []) top_k l count = searchLoop md none top_k l count := by
  intro l
  induction l with
  | nil => intro count; rfl
  | cons p t ih =>
    intro count
    cases p with
    | mk d i => simp [searchLoop, passesFilter, ih]

/-- C9: `search` with an empty `filter_filenames` list applies no
filtering at all and returns exactly what `search` with no filter
returns, for every store, query vector and `top_k`. -/
theorem c9_empty_filter_means_no_filter (s : VectorStore) (q : Vec)
    (top_k : Nat) :
    s.search q top_k (some []) = s.search q top_k none := by
  unfold VectorStore.search
  by_cases h : s.index.length = 0 <;> simp [h, searchLoop_some_nil]

/-- C10: deleting a filename absent from every metadata entry returns
before the rebuild and the save, leaving the whole store state — index,
metadata, and both persisted artifacts — unchanged. -/
theorem c10_delete_absent_is_noop (s : VectorStore) (fn : String)
    (h : ∀ c ∈ s.metadata, c.filename ≠ fn) :
    s.delete_by_filename fn = s :=
  delete_eq_of_all_keep s fn (fun c hc => by
    simpa [bne_iff_ne] using h c hc)

/-- C10 witness: deleting `a.txt` from a store that only holds `b.txt`. -/
theorem c10_delete_absent_is_noop_witness :
    (∀ c ∈ exStoreB.metadata, c.filename ≠ "a.txt") ∧
    exStoreB.delete_by_filename "a.txt" = exStoreB :=
  ⟨by decide, c10_delete_absent_is_noop exStoreB "a.txt" (by decide)⟩

/-- C6: when the vector-store search returns no chunks, `query` returns
the fixed no-relevant-information answer with an empty sources list and
sends no request at all to the generation service (the second component
of `queryPipeline`, the list of prompts POSTed, is empty, and the result
does not depend on the `llm` oracle). -/
theorem c6_no_results_no_llm_call (embed_query : String → Vec)
    (llm : String → LLMResponse) (store : VectorStore) (question : String)
    (top_k : Nat) (active_files : Option (List String))
    (h : store.search (embed_query question) top_k active_files = []) :
    queryPipeline embed_query llm store question top_k active_files =
      (⟨"No relevant information found in the indexed documents.", []⟩, []) := by
  simp [queryPipeline, h]

/-- C6 witness: a query against an empty store. -/
theorem c6_no_results_no_llm_call_witness :
    (emptyStore 1).search ((fun _ => [(0 : ℚ)]) "hi") 5 none = [] ∧
    queryPipeline (fun _ => [(0 : ℚ)]) (fun _ => LLMResponse.success "x")
        (emptyStore 1) "hi" 5 none =
      (⟨"No relevant information found in the indexed documents.", []⟩, []) :=
  ⟨by decide, c6_no_results_no_llm_call (fun _ => [(0 : ℚ)])
    (fun _ => LLMResponse.success "x") (emptyStore 1) "hi" 5 none (by decide)⟩

/-- The fallback answer is never the empty string. -/
theorem fallback_answer_ne_empty (p : String) : fallback_answer p ≠ "" := by
  intro h0
  have hl := congrArg String.length h0
  rw [fallback_answer] at hl
  simp only [String.length_append] at hl
  have hpos : 0 < unavailableNotice.length := by decide
  have hz : ("" : String).length = 0 := rfl
  omega

/-- C5: when the generation-service call fails (non-2xx status or network
failure), `query` still returns a result: the answer is the fallback
text, which is non-empty, states the service is unavailable
(`unavailableNotice`) and echoes the constructed prompt verbatim between
the two fixed fragments; the sources field is exactly (same elements,
same order) the list returned by `search`. -/
theorem c5_llm_failure_fallback (embed_query : String → Vec)
    (llm : String → LLMResponse) (store : VectorStore) (question : String)
    (top_k : Nat) (active_files : Option (List String))
    (hne : store.search (embed_query question) top_k active_files ≠ [])
    (hfail : isFailure (llm (promptTemplate
      (format_context (store.search (embed_query question) top_k active_files))
      question)) = true) :
    (queryPipeline embed_query llm store question top_k active_files).1.answer =
      unavailableNotice ++
        promptTemplate
          (format_context (store.search (embed_query question) top_k active_files))
          question ++ ollamaHint ∧
    (queryPipeline embed_query llm store question top_k active_files).1.answer ≠ "" ∧
    (queryPipeline embed_query llm store question top_k active_files).1.sources =
      store.search (embed_query question) top_k active_files := by
  cases hllm : llm (promptTemplate
      (format_context (store.search (embed_query question) top_k active_files))
      question) with
  | success body =>
    rw [hllm] at hfail
    simp [isFailure] at hfail
  | httpError status =>
    have hans : (queryPipeline embed_query llm store question top_k
        active_files).1.answer = fallback_answer (promptTemplate
          (format_context (store.search (embed_query question) top_k active_files))
          question) := by
      simp [queryPipeline, hne, generate_answer, hllm]
    refine ⟨by rw [hans]; rfl, ?_, ?_⟩
    · rw [hans]; exact fallback_answer_ne_empty _
    · simp [queryPipeline, hne, generate_answer, hllm]
  | networkError msg =>
    have hans : (queryPipeline embed_query llm store question top_k
        active_files).1.answer = fallback_answer (promptTemplate
          (format_context (store.search (embed_query question) top_k active_files))
          question) := by
      simp [queryPipeline, hne, generate_answer, hllm]
    refine ⟨by rw [hans]; rfl, ?_, ?_⟩
    · rw [hans]; exact fallback_answer_ne_empty _
    · simp [queryPipeline, hne, generate_answer, hllm]

/-- C5 witness: a store with one hit and a generation service that
answers 500. -/
theorem c5_llm_failure_fallback_witness :
    exStore1.search ((fun _ => [(1 : ℚ)]) "what is alpha?") 5 none ≠ [] ∧
    isFailure ((fun _ => LLMResponse.httpError 500) (promptTemplate
      (format_context (exStore1.search ((fun _ => [(1 : ℚ)]) "what is alpha?") 5 none))
      "what is alpha?")) = true ∧
    ((queryPipeline (fun _ => [(1 : ℚ)]) (fun _ => LLMResponse.httpError 500)
        exStore1 "what is alpha?" 5 none).1.answer =
      unavailableNotice ++
        promptTemplate
          (format_context (exStore1.search ((fun _ => [(1 : ℚ)]) "what is alpha?") 5 none))
          "what is alpha?" ++ ollamaHint ∧
    (queryPipeline (fun _ => [(1 : ℚ)]) (fun _ => LLMResponse.httpError 500)
        exStore1 "what is alpha?" 5 none).1.answer ≠ "" ∧
    (queryPipeline (fun _ => [(1 : ℚ)]) (fun _ => LLMResponse.httpError 500)
        exStore1 "what is alpha?" 5 none).1.sources =
      exStore1.search ((fun _ => [(1 : ℚ)]) "what is alpha?") 5 none) :=
  ⟨by decide, by decide,
    c5_llm_failure_fallback (fun _ => [(1 : ℚ)])
      (fun _ => LLMResponse.httpError 500) exStore1 "what is alpha?" 5 none
      (by decide) (by decide)⟩

/-- With step 0 (a chunker built with `overlap = chunk_size`), the
chunking loop on a document longer than one window never terminates:
no amount of fuel produces a result. -/
theorem chunkLoop_zero_step_diverges :
    ∀ (fuel chunk_index : Nat),
      chunkLoop 75 0 badWords "doc.txt" "txt" fuel 0 chunk_index = none := by
  intro fuel
  induction fuel with
  | zero => intro chunk_index; rfl
  | succ n ih =>
    intro chunk_index
    have h0 : (0 : Nat) < badWords.length := by decide
    have h1 : ¬ (badWords.length ≤ 0 + 75) := by decide
    simp only [chunkLoop, if_pos h0, if_neg h1, Nat.add_zero, ih, Option.map_none']

/-- C3: `TextChunker.__init__` performs no construction-time validation:
`TextChunker(100, 100)` (overlap equal to chunk size) constructs a
chunker whose window step `words_per_chunk - words_overlap` is 0, and on
a 76-word document its `chunk_text` loop never terminates — `chunkLoop`
returns `none` for every fuel, and `chunk_text` (which allots fuel
`words.length`, enough for every positive-step run) returns `none`. -/
theorem c3_no_validation_chunk_text_diverges :
    (mkTextChunker 100 100).words_per_chunk -
        (mkTextChunker 100 100).words_overlap = 0 ∧
    (∀ fuel chunk_index : Nat,
      chunkLoop (mkTextChunker 100 100).words_per_chunk 0 badWords
        "doc.txt" "txt" fuel 0 chunk_index = none) ∧
    chunk_text (mkTextChunker 100 100) badText "doc.txt" "txt" = none := by
  refine ⟨by decide, ?_, ?_⟩
  · intro fuel chunk_index
    exact chunkLoop_zero_step_diverges fuel chunk_index
  · have hw : pySplit (cleanText badText) = badWords := by decide
    simp only [chunk_text]
    rw [hw]
    rw [if_neg (by decide :
      ¬ (badWords.length ≤ (mkTextChunker 100 100).words_per_chunk))]
    rw [(by decide : (mkTextChunker 100 100).words_per_chunk -
        (mkTextChunker 100 100).words_overlap = 0)]
    rw [(by decide : (mkTextChunker 100 100).words_per_chunk = 75)]
    rw [chunkLoop_zero_step_diverges badWords.length 0]

/-- C8 counterexample: an upload of `a.txt` whose extracted text is empty
is rejected with a client error (400), but state HAS been mutated: the
uploaded file was already written to the uploads directory before the
empty-text check and is not removed, so the claim that no state changes
is false as stated. -/
theorem c8_counterexample_empty_text_mutates_state :
    (upload_file okExtract okEmbed (mkTextChunker 500 100) st0 "a.txt" "").2 =
      Except.error (400, "No text content found in file") ∧
    (upload_file okExtract okEmbed (mkTextChunker 500 100) st0 "a.txt" "").1 ≠ st0 := by
  constructor <;> decide

/-- C8 amended: an upload with an unsupported extension is rejected with
a client error before any state change (the extension check precedes the
file write); an upload with an allowed extension whose extracted text is
empty is rejected with a client error and the vector store (with its
persisted artifacts) is untouched, but by then the raw file has already
been saved into the uploads directory, and it is not rolled back. -/
theorem c8_amended_rejections (extract : String → Except String String)
    (embed : List String → Except String (List Vec)) (chunker : TextChunker)
    (st : AppState) (filename content text : String) :
    (pyLower (pathSuffix filename) ∉ allowed_extensions →
      upload_file extract embed chunker st filename content =
        (st, Except.error (400,
          "Unsupported file type. Allowed: .pdf, .txt, .md, .markdown, .docx"))) ∧
    (pyLower (pathSuffix filename) ∈ allowed_extensions →
      extract content = Except.ok text → pyStrip text = "" →
      upload_file extract embed chunker st filename content =
        ({ st with uploads := saveFile st.uploads filename content },
         Except.error (400, "No text content found in file"))) := by
  constructor
  · intro h
    simp [upload_file, h]
  · intro hext h1 h2
    simp [upload_file, hext, h1, h2]

/-- C8 witness: both rejection paths at concrete inputs (`a.exe` with
some content; `a.txt` with empty content under the identity extractor). -/
theorem c8_amended_rejections_witness :
    (pyLower (pathSuffix "a.exe") ∉ allowed_extensions ∧
      upload_file okExtract okEmbed (mkTextChunker 500 100) st0 "a.exe" "hello" =
        (st0, Except.error (400,
          "Unsupported file type. Allowed: .pdf, .txt, .md, .markdown, .docx"))) ∧
    (pyLower (pathSuffix "a.txt") ∈ allowed_extensions ∧
      okExtract "" = Except.ok "" ∧ pyStrip "" = "" ∧
      upload_file okExtract okEmbed (mkTextChunker 500 100) st0 "a.txt" "" =
        ({ st0 with uploads := saveFile st0.uploads "a.txt" "" },
         Except.error (400, "No text content found in file"))) := by
  constructor
  · exact ⟨by decide,
      (c8_amended_rejections okExtract okEmbed (mkTextChunker 500 100) st0
        "a.exe" "hello" "hello").1 (by decide)⟩
  · exact ⟨by decide, rfl, rfl,
      (c8_amended_rejections okExtract okEmbed (mkTextChunker 500 100) st0
        "a.txt" "" "").2 (by decide) rfl rfl⟩

/-- Characterization of a terminating run of the chunking loop: when the
step is positive (and at most the window width, as it always is for
`wpc - wo` on `Nat`), the loop started inside the word list with enough
fuel produces the windows at offsets `start, start + step, ...`, the last
window reaching the end of the word list and every earlier window ending
strictly inside it. -/
theorem chunkLoop_spec (wpc step : Nat) (words : List String) (fn ft : String)
    (hstep : 1 ≤ step) (hsw : step ≤ wpc) :
    ∀ (fuel start idx : Nat), start < words.length →
      words.length - start ≤ fuel →
      ∃ cs : List Chunk,
        chunkLoop wpc step words fn ft fuel start idx = some cs ∧
        cs ≠ [] ∧
        (∀ j (hj : j < cs.length),
          cs[j] = ⟨String.intercalate " " ((words.drop (start + j * step)).take wpc),
            fn, ft, idx + j, 0⟩) ∧
        words.length ≤ start + (cs.length - 1) * step + wpc ∧
        (∀ j, j + 1 < cs.length → start + j * step + wpc < words.length) := by
  intro fuel
  induction fuel with
  | zero => intro start idx h1 h2; omega
  | succ n ih =>
    intro start idx h1 h2
    by_cases hend : words.length ≤ start + wpc
    · refine ⟨[⟨String.intercalate " " ((words.drop start).take wpc), fn, ft, idx, 0⟩],
        ?_, ?_, ?_, ?_, ?_⟩
      · simp [chunkLoop, h1, hend]
      · simp
      · intro j hj
        have hj0 : j = 0 := by simpa using Nat.lt_one_iff.mp (by simpa using hj)
        subst hj0
        simp
      · simpa using hend
      · intro j hj
        simp at hj
    · push_neg at hend
      have hstart2 : start + step < words.length := by omega
      have hfuel2 : words.length - (start + step) ≤ n := by omega
      obtain ⟨cs2, hsome, hne, hget, hcov, hlast⟩ := ih (start + step) (idx + 1) hstart2 hfuel2
      have hend2 : ¬ (words.length ≤ start + wpc) := by omega
      refine ⟨⟨String.intercalate " " ((words.drop start).take wpc), fn, ft, idx, 0⟩ :: cs2,
        ?_, ?_, ?_, ?_, ?_⟩
      · simp [chunkLoop, h1, hend2, hsome]
      · simp
      · intro j hj
        cases j with
        | zero => simp
        | succ k =>
          have hk : k < cs2.length := by simpa using hj
          have hgk := hget k hk
          have harith : start + step + k * step = start + (k + 1) * step := by
            rw [Nat.succ_mul]; ring
          have hidx : idx + 1 + k = idx + (k + 1) := by omega
          rw [harith, hidx] at hgk
          simpa using hgk
      · obtain ⟨L, hL⟩ : ∃ L, cs2.length = L + 1 :=
          ⟨cs2.length - 1, by have := List.length_pos.mpr hne; omega⟩
        rw [hL] at hcov
        simp only [List.length_cons, hL, Nat.add_sub_cancel] at hcov ⊢
        rw [Nat.succ_mul]
        have hre : start + (L * step + step) + wpc = start + step + L * step + wpc := by ring
        rw [hre]
        exact hcov
      · intro j hj
        cases j with
        | zero => simpa using hend
        | succ k =>
          have hk : k + 1 < cs2.length := by simpa using hj
          have hlk := hlast k hk
          have harith : start + step + k * step = start + (k + 1) * step := by
            rw [Nat.succ_mul]; ring
          rw [harith] at hlk
          exact hlk

/-- Joining consecutive width-`s` slices starting at `a` onto the prefix
of length `a` reconstructs the whole list, as soon as the slices reach
the end. -/
theorem join_windows (l : List String) (s : Nat) :
    ∀ (m a : Nat), l.length ≤ a + m * s →
      l.take a ++
        ((List.range m).map (fun i => (l.drop (a + i * s)).take s)).flatten = l := by
  intro m
  induction m with
  | zero =>
    intro a h
    simp only [Nat.zero_mul, Nat.add_zero] at h
    simp [List.take_of_length_le h]
  | succ k ih =>
    intro a h
    rw [List.range_succ_eq_map, List.map_cons, List.map_map, List.flatten_cons]
    have hmap : ((List.range k).map
          ((fun i => (l.drop (a + i * s)).take s) ∘ Nat.succ)) =
        (List.range k).map (fun i => (l.drop ((a + s) + i * s)).take s) := by
      apply List.map_congr_left
      intro i _
      simp only [Function.comp_apply, Nat.succ_eq_add_one]
      have harith : a + (i + 1) * s = (a + s) + i * s := by
        rw [Nat.succ_mul]; ring
      rw [harith]
    rw [hmap, Nat.zero_mul, Nat.add_zero, ← List.append_assoc, ← List.take_add]
    apply ih
    rw [Nat.succ_mul] at h
    have harith : a + (k * s + s) = (a + s) + k * s := by ring
    rw [harith] at h
    exact h

/-- Geometry of the sliding windows, independently of the chunk list:
with positive step `wpc - wo`, if the `m`-th window is the first to reach
the end of the word list, then every earlier window is full width, two
consecutive windows share exactly `wo` words at the boundary, and the
windows with the overlaps removed reconstruct the word list. -/
theorem window_props (ws : List String) (wpc wo m : Nat)
    (hstep : 1 ≤ wpc - wo) (hm : 0 < m)
    (hcov : ws.length ≤ (m - 1) * (wpc - wo) + wpc)
    (hlast : ∀ j, j + 1 < m → j * (wpc - wo) + wpc < ws.length) :
    (∀ j, j + 1 < m → (windowWords ws wpc (wpc - wo) j).length = wpc) ∧
    (∀ j, j + 1 < m →
      (windowWords ws wpc (wpc - wo) j).drop (wpc - wo) =
        (windowWords ws wpc (wpc - wo) (j + 1)).take wo ∧
      ((windowWords ws wpc (wpc - wo) j).drop (wpc - wo)).length = wo) ∧
    ((List.range m).map (fun j =>
        if j = 0 then windowWords ws wpc (wpc - wo) 0
        else (windowWords ws wpc (wpc - wo) j).drop wo)).flatten = ws := by
  have hwo : wo < wpc := by omega
  have hfull : ∀ j, j + 1 < m → (windowWords ws wpc (wpc - wo) j).length = wpc := by
    intro j hj
    have h2 := hlast j hj
    obtain ⟨P, hP⟩ : ∃ P, j * (wpc - wo) = P := ⟨_, rfl⟩
    rw [hP] at h2
    rw [windowWords, hP, List.length_take, List.length_drop]
    omega
  refine ⟨hfull, ?_, ?_⟩
  · intro j hj
    constructor
    · simp only [windowWords]
      rw [List.drop_take, List.drop_drop, List.take_take]
      have h1 : wpc - (wpc - wo) = wo := by omega
      have h2 : j * (wpc - wo) + (wpc - wo) = (j + 1) * (wpc - wo) := by
        rw [Nat.succ_mul]
      have h3 : wo ⊓ wpc = wo := Nat.min_eq_left (le_of_lt hwo)
      rw [h1, h2, h3]
    · rw [List.length_drop, hfull j hj]
      omega
  · obtain ⟨k, hk⟩ : ∃ k, m = k + 1 := ⟨m - 1, by omega⟩
    subst hk
    rw [List.range_succ_eq_map, List.map_cons, List.map_map, List.flatten_cons]
    have hhead : (if (0 : Nat) = 0 then windowWords ws wpc (wpc - wo) 0
        else (windowWords ws wpc (wpc - wo) 0).drop wo) = ws.take wpc := by
      simp [windowWords]
    have hmap : ((List.range k).map
          ((fun j => if j = 0 then windowWords ws wpc (wpc - wo) 0
            else (windowWords ws wpc (wpc - wo) j).drop wo) ∘ Nat.succ)) =
        (List.range k).map
          (fun i => (ws.drop (wpc + i * (wpc - wo))).take (wpc - wo)) := by
      apply List.map_congr_left
      intro i _
      simp only [Function.comp_apply, Nat.succ_eq_add_one]
      rw [if_neg (by omega : ¬ (i + 1 = 0))]
      simp only [windowWords]
      rw [List.drop_take, List.drop_drop]
      have h1 : wpc - wo = wpc - wo := rfl
      have h2 : (i + 1) * (wpc - wo) + wo = wpc + i * (wpc - wo) := by
        rw [Nat.succ_mul]
        obtain ⟨P, hP⟩ : ∃ P, i * (wpc - wo) = P := ⟨_, rfl⟩
        rw [hP]
        omega
      rw [h2]
    rw [hhead, hmap]
    apply join_windows
    simp only [Nat.add_sub_cancel] at hcov
    obtain ⟨P, hP⟩ : ∃ P, k * (wpc - wo) = P := ⟨_, rfl⟩
    rw [hP] at hcov ⊢
    omega

/-- Characterization of `chunk_text` in the multi-chunk case: the result
is the list of windows at offsets `0, step, 2*step, ...`, each chunk
carrying its window joined with single spaces, its sequential index and
the backfilled total count; the last window reaches the end of the word
list, earlier ones end strictly inside it. -/
theorem chunk_text_spec (ch : TextChunker) (text fn ft : String)
    (hstep : 1 ≤ ch.words_per_chunk - ch.words_overlap)
    (hN : ch.words_per_chunk < (pySplit (cleanText text)).length) :
    ∃ cs : List Chunk,
      chunk_text ch text fn ft = some cs ∧ cs ≠ [] ∧
      (∀ j (hj : j < cs.length),
        cs[j] = ⟨String.intercalate " "
            (windowWords (pySplit (cleanText text)) ch.words_per_chunk
              (ch.words_per_chunk - ch.words_overlap) j),
          fn, ft, j, cs.length⟩) ∧
      (pySplit (cleanText text)).length ≤
        (cs.length - 1) * (ch.words_per_chunk - ch.words_overlap) +
          ch.words_per_chunk ∧
      (∀ j, j + 1 < cs.length →
        j * (ch.words_per_chunk - ch.words_overlap) + ch.words_per_chunk <
          (pySplit (cleanText text)).length) := by
  have h0 : 0 < (pySplit (cleanText text)).length := by omega
  obtain ⟨cs0, hsome, hne, hget, hcov, hlast⟩ :=
    chunkLoop_spec ch.words_per_chunk (ch.words_per_chunk - ch.words_overlap)
      (pySplit (cleanText text)) fn ft hstep (Nat.sub_le _ _)
      (pySplit (cleanText text)).length 0 0 h0 (by omega)
  refine ⟨cs0.map (fun c => { c with total_chunks := cs0.length }),
    ?_, ?_, ?_, ?_, ?_⟩
  · simp only [chunk_text]
    rw [if_neg (by omega : ¬ ((pySplit (cleanText text)).length ≤ ch.words_per_chunk))]
    rw [hsome]
  · simpa using hne
  · intro j hj
    have hj0 : j < cs0.length := by simpa using hj
    rw [List.getElem_map, hget j hj0]
    simp only [List.length_map]
    simp [windowWords]
  · simpa using hcov
  · intro j hj
    have hj0 : j + 1 < cs0.length := by simpa using hj
    simpa using hlast j hj0

/-- C4: for every chunker with positive window step and every text whose
normalized word count exceeds `words_per_chunk`, `chunk_text` produces
the windows at offsets `0, step, 2*step, ...` (each chunk's text is its
window joined with single spaces); every window except the last has
exactly `words_per_chunk` words; consecutive windows share exactly
`words_overlap` words at the boundary (the last `words_overlap` words of
a non-last window are the first `words_overlap` words of the next); the
windows with overlaps removed concatenate back to the original
normalized word sequence; and every chunk's `total_chunks` equals the
number of windows produced. -/
theorem c4_sliding_window_properties (ch : TextChunker) (text fn ft : String)
    (cs : List Chunk)
    (hstep : 1 ≤ ch.words_per_chunk - ch.words_overlap)
    (hN : ch.words_per_chunk < (pySplit (cleanText text)).length)
    (hcs : chunk_text ch text fn ft = some cs) :
    (∀ j (hj : j < cs.length),
      cs[j].text = String.intercalate " "
        (windowWords (pySplit (cleanText text)) ch.words_per_chunk
          (ch.words_per_chunk - ch.words_overlap) j)) ∧
    (∀ j, j + 1 < cs.length →
      (windowWords (pySplit (cleanText text)) ch.words_per_chunk
        (ch.words_per_chunk - ch.words_overlap) j).length = ch.words_per_chunk) ∧
    (∀ j, j + 1 < cs.length →
      (windowWords (pySplit (cleanText text)) ch.words_per_chunk
          (ch.words_per_chunk - ch.words_overlap) j).drop
          (ch.words_per_chunk - ch.words_overlap) =
        (windowWords (pySplit (cleanText text)) ch.words_per_chunk
          (ch.words_per_chunk - ch.words_overlap) (j + 1)).take ch.words_overlap ∧
      ((windowWords (pySplit (cleanText text)) ch.words_per_chunk
          (ch.words_per_chunk - ch.words_overlap) j).drop
          (ch.words_per_chunk - ch.words_overlap)).length = ch.words_overlap) ∧
    ((List.range cs.length).map (fun j =>
        if j = 0 then
          windowWords (pySplit (cleanText text)) ch.words_per_chunk
            (ch.words_per_chunk - ch.words_overlap) 0
        else
          (windowWords (pySplit (cleanText text)) ch.words_per_chunk
            (ch.words_per_chunk - ch.words_overlap) j).drop
            ch.words_overlap)).flatten = pySplit (cleanText text) ∧
    (∀ c ∈ cs, c.total_chunks = cs.length) := by
  obtain ⟨cs0, hsome, hne, hget, hcov, hlast⟩ := chunk_text_spec ch text fn ft hstep hN
  have hcs0 : cs = cs0 := by
    rw [hcs] at hsome
    exact Option.some.inj hsome
  subst hcs0
  have hm : 0 < cs.length := List.length_pos.mpr hne
  obtain ⟨hfull, hshare, hjoin⟩ :=
    window_props (pySplit (cleanText text)) ch.words_per_chunk ch.words_overlap
      cs.length hstep hm hcov hlast
  refine ⟨?_, hfull, hshare, hjoin, ?_⟩
  · intro j hj
    rw [hget j hj]
  · intro c hc
    rw [List.mem_iff_getElem] at hc
    obtain ⟨j, hj, hcj⟩ := hc
    rw [← hcj, hget j hj]

/-- C4 witness: the chunker `TextChunker(8, 4)` (6-word windows, 3-word
overlap, step 3) applied to a ten-word text, yielding three windows. -/
theorem c4_sliding_window_properties_witness :
    1 ≤ (mkTextChunker 8 4).words_per_chunk - (mkTextChunker 8 4).words_overlap ∧
    (mkTextChunker 8 4).words_per_chunk <
      (pySplit (cleanText "a b c d e f g h i j")).length ∧
    chunk_text (mkTextChunker 8 4) "a b c d e f g h i j" "f.txt" "txt" =
      some [⟨"a b c d e f", "f.txt", "txt", 0, 3⟩,
            ⟨"d e f g h i", "f.txt", "txt", 1, 3⟩,
            ⟨"g h i j", "f.txt", "txt", 2, 3⟩] ∧
    ((∀ j (hj : j < ([⟨"a b c d e f", "f.txt", "txt", 0, 3⟩,
            ⟨"d e f g h i", "f.txt", "txt", 1, 3⟩,
            ⟨"g h i j", "f.txt", "txt", 2, 3⟩] : List Chunk).length),
      ([⟨"a b c d e f", "f.txt", "txt", 0, 3⟩,
            ⟨"d e f g h i", "f.txt", "txt", 1, 3⟩,
            ⟨"g h i j", "f.txt", "txt", 2, 3⟩] : List Chunk)[j].text =
        String.intercalate " "
          (windowWords (pySplit (cleanText "a b c d e f g h i j"))
            (mkTextChunker 8 4).words_per_chunk
            ((mkTextChunker 8 4).words_per_chunk -
              (mkTextChunker 8 4).words_overlap) j)) ∧
    (∀ j, j + 1 < ([⟨"a b c d e f", "f.txt", "txt", 0, 3⟩,
            ⟨"d e f g h i", "f.txt", "txt", 1, 3⟩,
            ⟨"g h i j", "f.txt", "txt", 2, 3⟩] : List Chunk).length →
      (windowWords (pySplit (cleanText "a b c d e f g h i j"))
        (mkTextChunker 8 4).words_per_chunk
        ((mkTextChunker 8 4).words_per_chunk -
          (mkTextChunker 8 4).words_overlap) j).length =
        (mkTextChunker 8 4).words_per_chunk) ∧
    (∀ j, j + 1 < ([⟨"a b c d e f", "f.txt", "txt", 0, 3⟩,
            ⟨"d e f g h i", "f.txt", "txt", 1, 3⟩,
            ⟨"g h i j", "f.txt", "txt", 2, 3⟩] : List Chunk).length →
      (windowWords (pySplit (cleanText "a b c d e f g h i j"))
          (mkTextChunker 8 4).words_per_chunk
          ((mkTextChunker 8 4).words_per_chunk -
            (mkTextChunker 8 4).words_overlap) j).drop
          ((mkTextChunker 8 4).words_per_chunk -
            (mkTextChunker 8 4).words_overlap) =
        (windowWords (pySplit (cleanText "a b c d e f g h i j"))
          (mkTextChunker 8 4).words_per_chunk
          ((mkTextChunker 8 4).words_per_chunk -
            (mkTextChunker 8 4).words_overlap) (j + 1)).take
          (mkTextChunker 8 4).words_overlap ∧
      ((windowWords (pySplit (cleanText "a b c d e f g h i j"))
          (mkTextChunker 8 4).words_per_chunk
          ((mkTextChunker 8 4).words_per_chunk -
            (mkTextChunker 8 4).words_overlap) j).drop
          ((mkTextChunker 8 4).words_per_chunk -
            (mkTextChunker 8 4).words_overlap)).length =
        (mkTextChunker 8 4).words_overlap) ∧
    ((List.range ([⟨"a b c d e f", "f.txt", "txt", 0, 3⟩,
            ⟨"d e f g h i", "f.txt", "txt", 1, 3⟩,
            ⟨"g h i j", "f.txt", "txt", 2, 3⟩] : List Chunk).length).map (fun j =>
        if j = 0 then
          windowWords (pySplit (cleanText "a b c d e f g h i j"))
            (mkTextChunker 8 4).words_per_chunk
            ((mkTextChunker 8 4).words_per_chunk -
              (mkTextChunker 8 4).words_overlap) 0
        else
          (windowWords (pySplit (cleanText "a b c d e f g h i j"))
            (mkTextChunker 8 4).words_per_chunk
            ((mkTextChunker 8 4).words_per_chunk -
              (mkTextChunker 8 4).words_overlap) j).drop
            (mkTextChunker 8 4).words_overlap)).flatten =
      pySplit (cleanText "a b c d e f g h i j") ∧
    (∀ c ∈ ([⟨"a b c d e f", "f.txt", "txt", 0, 3⟩,
            ⟨"d e f g h i", "f.txt", "txt", 1, 3⟩,
            ⟨"g h i j", "f.txt", "txt", 2, 3⟩] : List Chunk),
      c.total_chunks = ([⟨"a b c d e f", "f.txt", "txt", 0, 3⟩,
            ⟨"d e f g h i", "f.txt", "txt", 1, 3⟩,
            ⟨"g h i j", "f.txt", "txt", 2, 3⟩] : List Chunk).length)) :=
  ⟨by decide, by decide, by decide,
    c4_sliding_window_properties (mkTextChunker 8 4) "a b c d e f g h i j"
      "f.txt" "txt"
      [⟨"a b c d e f", "f.txt", "txt", 0, 3⟩,
       ⟨"d e f g h i", "f.txt", "txt", 1, 3⟩,
       ⟨"g h i j", "f.txt", "txt", 2, 3⟩]
      (by decide) (by decide) (by decide)⟩
